import Mathlib

/-!
# Verification of the srsRAN MAC control component and PDU-session setup routine

Shallow embedding of `lib/mac/mac_ctrl/mac_ctrl_component.cc` (UE registry with
RNTI reverse index, create/delete/reconfiguration request handlers, deferred UE
removal) and of the CU-CP PDU-session-resource-setup routine exercised by
`pdu_session_resource_setup_test`.

Machine values are modelled as `Nat` (RNTIs are 16-bit in the source, but the
code only compares them with `INVALID_RNTI` and reduces them modulo
`MAX_NOF_UES`, so `Nat` is adequate). A fatal `srsran_assert` is modelled by the
`assert_fail` constructor of `mac_result`, distinct from every ordinary return
value.
-/

namespace SrsranMacCtrl

/-- Capacity of the UE table (`MAX_NOF_UES`).  The constant is defined in the
repository's DU type headers; its concrete value (1024 in the sampled revision)
only matters for being smaller than the RNTI value space. -/
def MAX_NOF_UES : Nat := 1024

/-- `INVALID_RNTI` sentinel (value 0 in the source `rnti_t`). -/
def INVALID_RNTI : Nat := 0

/-- `mac_ue_context`: the per-UE fields written by `add_ue`. -/
structure mac_ue_context where
  du_ue_index : Nat
  rnti : Nat
  pcell_idx : Nat
deriving DecidableEq

/-- State of `mac_ctrl_component`: the sparse UE table `ue_db` (index ↦ entry)
and the RNTI reverse index `rnti_to_ue_index_map`, an array of `MAX_NOF_UES`
slots addressed by `rnti % MAX_NOF_UES`; the sentinel value `MAX_NOF_UES`
denotes an empty slot.  Both are modelled as total functions on `Nat`; only the
arguments below `MAX_NOF_UES` correspond to real array cells. -/
structure mac_ctrl_state where
  ue_db : Nat → Option mac_ue_context
  rnti_to_ue_index_map : Nat → Nat

/-- The constructor of `mac_ctrl_component` fills the reverse index with the
sentinel `MAX_NOF_UES` and starts with an empty UE table. -/
def init_state : mac_ctrl_state :=
  { ue_db := fun _ => none, rnti_to_ue_index_map := fun _ => MAX_NOF_UES }

/-- Result of a call that may trip a fatal `srsran_assert`: `assert_fail` is
the assertion firing (program abort), `ok v` is a normal return of `v`. -/
inductive mac_result (α : Type) where
  | assert_fail : mac_result α
  | ok : α → mac_result α
deriving DecidableEq

/-- `mac_ctrl_component::add_ue`.  Asserts `crnti != INVALID_RNTI` and
`ue_index < MAX_NOF_UES`; returns `nullptr` (here `none`) without mutation if
the reverse-index slot `crnti % MAX_NOF_UES` is occupied or `ue_db` already
contains `ue_index`; otherwise inserts the UE, records its index in the
reverse-index slot and returns a pointer to the new element (here the inserted
context). -/
def add_ue (s : mac_ctrl_state) (ue_index crnti cell_index : Nat) :
    mac_result (Option mac_ue_context × mac_ctrl_state) :=
  if crnti = INVALID_RNTI then .assert_fail
  else if MAX_NOF_UES ≤ ue_index then .assert_fail
  else if s.rnti_to_ue_index_map (crnti % MAX_NOF_UES) < MAX_NOF_UES then
    .ok (none, s)
  else if (s.ue_db ue_index).isSome then
    .ok (none, s)
  else
    .ok (some ⟨ue_index, crnti, cell_index⟩,
      { ue_db := Function.update s.ue_db ue_index (some ⟨ue_index, crnti, cell_index⟩),
        rnti_to_ue_index_map :=
          Function.update s.rnti_to_ue_index_map (crnti % MAX_NOF_UES) ue_index })

/-- `mac_ctrl_component::find_ue`: asserts `ue_index < MAX_NOF_UES`, then
returns a pointer to the UE context or `nullptr`. -/
def find_ue (s : mac_ctrl_state) (ue_index : Nat) : mac_result (Option mac_ue_context) :=
  if MAX_NOF_UES ≤ ue_index then .assert_fail
  else .ok (s.ue_db ue_index)

/-- `mac_ctrl_component::find_by_rnti`: asserts `rnti != INVALID_RNTI`, reads
the reverse-index slot `rnti % MAX_NOF_UES`, returns `nullptr` on the sentinel
and otherwise delegates to `find_ue` on the stored index. -/
def find_by_rnti (s : mac_ctrl_state) (rnti : Nat) : mac_result (Option mac_ue_context) :=
  if rnti = INVALID_RNTI then .assert_fail
  else
    if s.rnti_to_ue_index_map (rnti % MAX_NOF_UES) = MAX_NOF_UES then .ok none
    else find_ue s (s.rnti_to_ue_index_map (rnti % MAX_NOF_UES))

/-- `mac_ue_create_request_message` (fields used by the control component). -/
structure mac_ue_create_request_message where
  ue_index : Nat
  crnti : Nat
  cell_index : Nat

/-- `mac_ue_create_request_response_message` as filled on the failure path. -/
structure mac_ue_create_request_response_message where
  ue_index : Nat
  cell_index : Nat
  result : Bool
deriving DecidableEq

/-- Observable outcome of one `ue_create_request` call: the response (if any)
delivered synchronously to `cfg_notifier`, whether a UE-create procedure task
was scheduled on the UE's control loop, and the registry state afterwards. -/
structure create_request_outcome where
  response : Option mac_ue_create_request_response_message
  scheduled_proc : Bool
  state : mac_ctrl_state

/-- `mac_ctrl_component::ue_create_request`: calls `add_ue`; on `nullptr`
notifies a response echoing `ue_index`/`cell_index` with `result = false` and
schedules nothing; on success schedules the UE create procedure (whose own
response is delivered later, hence no synchronous response here). -/
def ue_create_request (s : mac_ctrl_state) (msg : mac_ue_create_request_message) :
    mac_result create_request_outcome :=
  match add_ue s msg.ue_index msg.crnti msg.cell_index with
  | .assert_fail => .assert_fail
  | .ok (none, s1) =>
      .ok { response := some ⟨msg.ue_index, msg.cell_index, false⟩,
            scheduled_proc := false, state := s1 }
  | .ok (some _, s1) =>
      .ok { response := none, scheduled_proc := true, state := s1 }

/-- `mac_ue_delete_request_message` (fields used by the control component). -/
structure mac_ue_delete_request_message where
  ue_index : Nat
  rnti : Nat

/-- `mac_ue_delete_response_message` as filled on the failure path. -/
structure mac_ue_delete_response_message where
  ue_index : Nat
  result : Bool
deriving DecidableEq

/-- Observable outcome of one `ue_delete_request` call. -/
structure delete_request_outcome where
  response : Option mac_ue_delete_response_message
  scheduled_proc : Bool
  state : mac_ctrl_state

/-- `mac_ctrl_component::ue_delete_request`: if `ue_db` does not contain
`msg.ue_index`, notifies a response with `result = false` and returns;
otherwise schedules the UE delete procedure on that UE's control loop. -/
def ue_delete_request (s : mac_ctrl_state) (msg : mac_ue_delete_request_message) :
    delete_request_outcome :=
  if (s.ue_db msg.ue_index).isSome then
    { response := none, scheduled_proc := true, state := s }
  else
    { response := some ⟨msg.ue_index, false⟩, scheduled_proc := false, state := s }

/-- `mac_ue_reconfiguration_request_message` (fields used here). -/
structure mac_ue_reconfiguration_request_message where
  ue_index : Nat
  crnti : Nat

/-- `mac_ue_reconfiguration_response_message` as filled on the failure path. -/
structure mac_ue_reconfiguration_response_message where
  ue_index : Nat
  result : Bool
deriving DecidableEq

/-- Observable outcome of one `ue_reconfiguration_request` call. -/
structure reconf_request_outcome where
  response : Option mac_ue_reconfiguration_response_message
  scheduled_proc : Bool
  state : mac_ctrl_state

/-- `mac_ctrl_component::ue_reconfiguration_request`: if `ue_db` does not
contain `msg.ue_index`, notifies a response with `result = false` and returns;
otherwise schedules the reconfiguration procedure. -/
def ue_reconfiguration_request (s : mac_ctrl_state)
    (msg : mac_ue_reconfiguration_request_message) : reconf_request_outcome :=
  if (s.ue_db msg.ue_index).isSome then
    { response := none, scheduled_proc := true, state := s }
  else
    { response := some ⟨msg.ue_index, false⟩, scheduled_proc := false, state := s }

/-- The structural erase executed at the end of the deferred-removal closure:
`ue_db.erase(ue_index)`.  Note that the closure does NOT touch
`rnti_to_ue_index_map`: the reverse-index slot of the erased UE keeps its stale
index value. -/
def erase_ue (s : mac_ctrl_state) (ue_index : Nat) : mac_ctrl_state :=
  { ue_db := Function.update s.ue_db ue_index none,
    rnti_to_ue_index_map := s.rnti_to_ue_index_map }

/-- Observable outcome of one `remove_ue` call: whether the not-found warning
was logged, and whether the deferred-erase closure was scheduled on the main
control loop (the erase itself runs later, after the UE loop drains). -/
structure remove_outcome where
  warned : Bool
  scheduled_erase : Bool
  state : mac_ctrl_state

/-- `mac_ctrl_component::remove_ue`: asserts `ue_index < MAX_NOF_UES`; if the
UE is absent, logs a warning and returns without scheduling; otherwise
schedules the deferred-erase closure on `main_ctrl_loop` (no synchronous
registry mutation). -/
def remove_ue (s : mac_ctrl_state) (ue_index : Nat) : mac_result remove_outcome :=
  if MAX_NOF_UES ≤ ue_index then .assert_fail
  else if (s.ue_db ue_index).isSome then
    .ok { warned := false, scheduled_erase := true, state := s }
  else
    .ok { warned := true, scheduled_erase := false, state := s }

/-- Registry states reachable through the component's public operations:
the constructor's initial state, any non-asserting `ue_create_request`, and
the deferred-erase step at any index (`ue_delete_request` and
`ue_reconfiguration_request` never change the registry state). -/
inductive reachable : mac_ctrl_state → Prop
  | init : reachable init_state
  | create {s : mac_ctrl_state} {msg : mac_ue_create_request_message}
      {out : create_request_outcome} :
      reachable s → ue_create_request s msg = .ok out → reachable out.state
  | erase {s : mac_ctrl_state} (ue_index : Nat) :
      reachable s → reachable (erase_ue s ue_index)

/-- Structural invariant of the registry: every live UE's reverse-index slot is
occupied (below the sentinel), and every reverse-index slot holds at most the
sentinel value. -/
def state_inv (s : mac_ctrl_state) : Prop :=
  (∀ i u, s.ue_db i = some u → s.rnti_to_ue_index_map (u.rnti % MAX_NOF_UES) < MAX_NOF_UES) ∧
  (∀ k, s.rnti_to_ue_index_map k ≤ MAX_NOF_UES)

/-! ## Deferred-removal closure (temporal model)

`remove_ue` schedules on `main_ctrl_loop` the coroutine
`{ CORO_BEGIN; sanity_check(contains); CORO_AWAIT(ctrl_loop.request_stop());
erase; CORO_RETURN }`.  We model its execution as a labelled step relation over
configurations `(registry state, loop_busy, pc)`, where `loop_busy i = true`
means UE `i`'s control loop has a running or queued task, and `pc` is the
coroutine's resume point: 0 before the sanity check, 1 suspended on the drain
await, 2 resumed after drain, 3 returned. -/

/-- One configuration of the deferred-removal coroutine together with its
environment: the registry, the per-UE busy flags, and the program counter. -/
structure erase_config where
  reg : mac_ctrl_state
  loop_busy : Nat → Bool
  pc : Nat

/-- Events of a deferred-removal execution. -/
inductive erase_event where
  | sanity_check
  | drain_resolved
  | erased
  | env_step
deriving DecidableEq

/-- Labelled steps of the deferred-removal closure for UE `ue_index`.
`sanity_check` is the `srsran_sanity_check(ue_db.contains(ue_index))` at
`CORO_BEGIN`; `drain_resolved` is the resumption of
`CORO_AWAIT(ue_db[ue_index].ctrl_loop.request_stop())` — modelled from the
spec: `request_stop` (whose implementation is not among the sampled sources)
resolves only once the UE's control loop is fully drained, i.e. the busy flag
is down; `erased` performs `ue_db.erase(ue_index)`; `env_step` lets the rest of
the system run, changing busy flags but not this coroutine's resume point or
the registry. -/
inductive erase_step (ue_index : Nat) : erase_config → erase_event → erase_config → Prop
  | check {s : mac_ctrl_state} {busy : Nat → Bool} :
      (s.ue_db ue_index).isSome →
      erase_step ue_index ⟨s, busy, 0⟩ .sanity_check ⟨s, busy, 1⟩
  | drain {s : mac_ctrl_state} {busy : Nat → Bool} :
      busy ue_index = false →
      erase_step ue_index ⟨s, busy, 1⟩ .drain_resolved ⟨s, busy, 2⟩
  | erase {s : mac_ctrl_state} {busy : Nat → Bool} :
      erase_step ue_index ⟨s, busy, 2⟩ .erased ⟨erase_ue s ue_index, busy, 3⟩
  | env {s : mac_ctrl_state} {busy : Nat → Bool} {p : Nat} (busy2 : Nat → Bool) :
      erase_step ue_index ⟨s, busy, p⟩ .env_step ⟨s, busy2, p⟩

/-- Finite executions of the deferred-removal closure: a list of events
connecting an initial configuration to a final one. -/
inductive erase_trace (ue_index : Nat) : erase_config → List erase_event → erase_config → Prop
  | nil (c : erase_config) : erase_trace ue_index c [] c
  | cons {c1 c2 c3 : erase_config} {e : erase_event} {es : List erase_event} :
      erase_step ue_index c1 e c2 → erase_trace ue_index c2 es c3 →
      erase_trace ue_index c1 (e :: es) c3

/-! ## PDU-session-resource-setup routine (CU-CP)

The routine itself (`start_pdu_session_resource_setup_routine`) is not among
the sampled sources; only its unit tests and the success predicate are.  The
routine is therefore modelled from the spec; the success predicate
`was_pdu_session_resource_setup_successful` is translated from the test
fixture. -/

/-- The four asynchronous collaborator calls issued by the setup routine, in
stage order. -/
inductive collaborator_call where
  | bearer_context_setup
  | ue_context_modification
  | bearer_context_modification
  | rrc_reconfiguration
deriving DecidableEq

/-- `cu_cp_pdu_session_resource_setup_request`: the UE id and the list of
requested PDU-session sub-resources (by session id).  An empty `setup_items`
is the "empty message" of the tests. -/
structure cu_cp_pdu_session_resource_setup_request where
  cu_cp_ue_id : Nat
  setup_items : List Nat

/-- `cu_cp_pdu_session_resource_setup_response`: requested sub-resources are
partitioned into succeeded and failed items once the task is ready. -/
structure cu_cp_pdu_session_resource_setup_response where
  pdu_session_res_setup_response_items : List Nat
  pdu_session_res_failed_to_setup_items : List Nat
deriving DecidableEq

/-- Modelled from the spec: `start_pdu_session_resource_setup_routine` (the
routine's source is not among the sampled files).  Per the spec: an empty
request short-circuits to an immediately-ready, trivially-empty result without
issuing any collaborator calls; otherwise the four stages run in order
(bearer-context setup, UE-context modification, bearer-context modification,
RRC reconfiguration), any stage rejection aborts the remaining stages and
places all requested sub-resources into the failed set, and only if all four
stages succeed are the requested sub-resources placed into the succeeded set.
Stage outcomes are the booleans preset on the collaborator notifiers, so the
task completes synchronously; the returned list records the collaborator calls
issued, in order. -/
def pdu_session_resource_setup_routine (req : cu_cp_pdu_session_resource_setup_request)
    (bearer_context_setup_outcome ue_context_modification_outcome
      bearer_context_modification_outcome rrc_reconfiguration_outcome : Bool) :
    List collaborator_call × cu_cp_pdu_session_resource_setup_response :=
  if req.setup_items.isEmpty then
    ([], ⟨[], []⟩)
  else if bearer_context_setup_outcome = false then
    ([.bearer_context_setup], ⟨[], req.setup_items⟩)
  else if ue_context_modification_outcome = false then
    ([.bearer_context_setup, .ue_context_modification], ⟨[], req.setup_items⟩)
  else if bearer_context_modification_outcome = false then
    ([.bearer_context_setup, .ue_context_modification, .bearer_context_modification],
      ⟨[], req.setup_items⟩)
  else if rrc_reconfiguration_outcome = false then
    ([.bearer_context_setup, .ue_context_modification, .bearer_context_modification,
        .rrc_reconfiguration],
      ⟨[], req.setup_items⟩)
  else
    ([.bearer_context_setup, .ue_context_modification, .bearer_context_modification,
        .rrc_reconfiguration],
      ⟨req.setup_items, []⟩)

/-- `was_pdu_session_resource_setup_successful` from the test fixture: false
if the task is not ready, false if any item failed to set up, otherwise true
iff at least one item was set up. -/
def was_pdu_session_resource_setup_successful (ready : Bool)
    (resp : cu_cp_pdu_session_resource_setup_response) : Bool :=
  if ready = false then false
  else if 0 < resp.pdu_session_res_failed_to_setup_items.length then false
  else 0 < resp.pdu_session_res_setup_response_items.length

/-! ## Registry invariant lemmas -/

theorem state_inv_init : state_inv init_state := by
  constructor
  · intro i u hu
    simp [init_state] at hu
  · intro k
    simp [init_state]

theorem state_inv_add {s : mac_ctrl_state} (hs : state_inv s)
    {ue_index crnti cell_index : Nat} {r : Option mac_ue_context × mac_ctrl_state}
    (h : add_ue s ue_index crnti cell_index = .ok r) : state_inv r.2 := by
  unfold add_ue at h
  split_ifs at h with h0 h1 h2 h3
  · injection h with h4
    rw [← h4]
    exact hs
  · injection h with h4
    rw [← h4]
    exact hs
  · injection h with h4
    rw [← h4]
    obtain ⟨hs1, hs2⟩ := hs
    push_neg at h1
    constructor
    · intro i u hu
      simp only [Function.update_apply] at hu ⊢
      by_cases hi : i = ue_index
      · rw [if_pos hi] at hu
        injection hu with hu2
        rw [← hu2]
        simp only [if_pos rfl]
        exact h1
      · rw [if_neg hi] at hu
        by_cases hr : u.rnti % MAX_NOF_UES = crnti % MAX_NOF_UES
        · rw [if_pos hr]
          exact h1
        · rw [if_neg hr]
          exact hs1 i u hu
    · intro k
      simp only [Function.update_apply]
      by_cases hk : k = crnti % MAX_NOF_UES
      · rw [if_pos hk]
        exact Nat.le_of_lt h1
      · rw [if_neg hk]
        exact hs2 k

theorem state_inv_erase {s : mac_ctrl_state} (hs : state_inv s) (ue_index : Nat) :
    state_inv (erase_ue s ue_index) := by
  obtain ⟨hs1, hs2⟩ := hs
  constructor
  · intro i u hu
    simp only [erase_ue, Function.update_apply] at hu
    by_cases hi : i = ue_index
    · rw [if_pos hi] at hu
      exact absurd hu (by simp)
    · rw [if_neg hi] at hu
      exact hs1 i u hu
  · intro k
    exact hs2 k

theorem state_inv_create {s : mac_ctrl_state} (hs : state_inv s)
    {msg : mac_ue_create_request_message} {out : create_request_outcome}
    (h : ue_create_request s msg = .ok out) : state_inv out.state := by
  unfold ue_create_request at h
  rcases hadd : add_ue s msg.ue_index msg.crnti msg.cell_index with _ | ⟨ptr, s1⟩
  · rw [hadd] at h
    exact absurd h (by simp)
  · rw [hadd] at h
    have hinv : state_inv s1 := state_inv_add hs hadd
    cases ptr with
    | none =>
        injection h with h4
        rw [← h4]
        exact hinv
    | some u =>
        injection h with h4
        rw [← h4]
        exact hinv

theorem reachable_state_inv {s : mac_ctrl_state} (h : reachable s) : state_inv s := by
  induction h with
  | init => exact state_inv_init
  | create hr heq ih => exact state_inv_create ih heq
  | erase ue_index hr ih => exact state_inv_erase ih ue_index

/-! ## Concrete states used by witnesses and counterexamples -/

/-- The registry after one successful `ue_create_request` for UE index 0 with
RNTI 1 on cell 0, starting from the initial state. -/
def s_one : mac_ctrl_state :=
  { ue_db := Function.update init_state.ue_db 0 (some ⟨0, 1, 0⟩),
    rnti_to_ue_index_map := Function.update init_state.rnti_to_ue_index_map (1 % MAX_NOF_UES) 0 }

theorem ue_create_request_init_eq :
    ue_create_request init_state ⟨0, 1, 0⟩ =
      .ok { response := none, scheduled_proc := true, state := s_one } := rfl

theorem reachable_s_one : reachable s_one :=
  reachable.create reachable.init ue_create_request_init_eq

/-- `s_one` after the deferred-erase closure removed UE 0: the UE table is
empty again, but the reverse-index slot of RNTI 1 still holds the stale index
0 because `ue_db.erase` does not touch `rnti_to_ue_index_map`. -/
def s_stale : mac_ctrl_state := erase_ue s_one 0

theorem reachable_s_stale : reachable s_stale :=
  reachable.erase 0 reachable_s_one

/-! ## Claims -/

/-- C1: for every non-empty PDU-session-resource-setup request, the overall
outcome is successful — in the source predicate's terms, and equivalently
failed-items empty with succeeded-items non-empty — if and only if all four
stage outcomes (bearer-context setup, UE-context modification, bearer-context
modification, RRC reconfiguration) are true; if any single stage outcome is
false the overall outcome is not successful. -/
theorem C1_setup_success_iff_all_stages
    (req : cu_cp_pdu_session_resource_setup_request) (b1 b2 b3 b4 : Bool)
    (hne : req.setup_items ≠ []) :
    (was_pdu_session_resource_setup_successful true
        (pdu_session_resource_setup_routine req b1 b2 b3 b4).2 = true ↔
      b1 = true ∧ b2 = true ∧ b3 = true ∧ b4 = true) ∧
    ((pdu_session_resource_setup_routine req b1 b2 b3 b4).2.pdu_session_res_failed_to_setup_items
          = [] ∧
        (pdu_session_resource_setup_routine req b1 b2 b3 b4).2.pdu_session_res_setup_response_items
          ≠ [] ↔
      b1 = true ∧ b2 = true ∧ b3 = true ∧ b4 = true) := by
  have hni : req.setup_items.isEmpty = false := by
    simpa using hne
  cases b1 <;> cases b2 <;> cases b3 <;> cases b4 <;>
    simp [pdu_session_resource_setup_routine, was_pdu_session_resource_setup_successful,
      hni, hne, List.length_pos]

/-- C1 witness: with request items `[1]` and all four stage outcomes true, the
success predicate evaluates to true. -/
theorem C1_setup_success_iff_all_stages_witness :
    was_pdu_session_resource_setup_successful true
      (pdu_session_resource_setup_routine ⟨0, [1]⟩ true true true true).2 = true :=
  ((C1_setup_success_iff_all_stages ⟨0, [1]⟩ true true true true (by decide)).1).mpr
    ⟨rfl, rfl, rfl, rfl⟩

/-- C2: an empty PDU-session-resource-setup request yields an immediately
ready result with no collaborator call issued and both result sets empty, and
the overall-success predicate evaluates to false on that result. -/
theorem C2_empty_request_not_successful
    (req : cu_cp_pdu_session_resource_setup_request) (b1 b2 b3 b4 : Bool)
    (h : req.setup_items = []) :
    pdu_session_resource_setup_routine req b1 b2 b3 b4 = ([], ⟨[], []⟩) ∧
    was_pdu_session_resource_setup_successful true
      (pdu_session_resource_setup_routine req b1 b2 b3 b4).2 = false := by
  have hni : req.setup_items.isEmpty = true := by simp [h]
  constructor <;>
    simp [pdu_session_resource_setup_routine, was_pdu_session_resource_setup_successful, hni]

/-- C2 witness: the empty request with all stage outcomes preset to true. -/
theorem C2_empty_request_not_successful_witness :
    pdu_session_resource_setup_routine ⟨0, []⟩ true true true true = ([], ⟨[], []⟩) ∧
    was_pdu_session_resource_setup_successful true
      (pdu_session_resource_setup_routine ⟨0, []⟩ true true true true).2 = false :=
  C2_empty_request_not_successful ⟨0, []⟩ true true true true rfl

/-- C3: on every reachable registry state, a create request whose RNTI already
belongs to a live UE, or whose UE index is already occupied, makes `add_ue`
return null without mutating the registry or the reverse index; no procedure
task is scheduled, and a failure response with `result = false` echoing the
request's UE index and cell index is delivered to the configuration
notifier. -/
theorem C3_duplicate_create_fails (s : mac_ctrl_state) (msg : mac_ue_create_request_message)
    (hs : reachable s) (hrnti : msg.crnti ≠ INVALID_RNTI) (hidx : msg.ue_index < MAX_NOF_UES)
    (hdup : (∃ i u, s.ue_db i = some u ∧ u.rnti = msg.crnti) ∨
      (s.ue_db msg.ue_index).isSome = true) :
    ue_create_request s msg =
      .ok { response := some ⟨msg.ue_index, msg.cell_index, false⟩,
            scheduled_proc := false, state := s } := by
  have hadd : add_ue s msg.ue_index msg.crnti msg.cell_index = .ok (none, s) := by
    unfold add_ue
    rw [if_neg hrnti, if_neg (Nat.not_le.mpr hidx)]
    by_cases hslot : s.rnti_to_ue_index_map (msg.crnti % MAX_NOF_UES) < MAX_NOF_UES
    · rw [if_pos hslot]
    · rw [if_neg hslot]
      rcases hdup with ⟨i, u, hu, hru⟩ | hocc
      · have hlive := (reachable_state_inv hs).1 i u hu
        rw [hru] at hlive
        exact absurd hlive hslot
      · rw [if_pos hocc]
  unfold ue_create_request
  rw [hadd]

/-- C3 witness: on the reachable state holding UE 0 with RNTI 1, a create
request for UE index 5 reusing RNTI 1 fails with the echoed response and an
unchanged state. -/
theorem C3_duplicate_create_fails_witness :
    ue_create_request s_one ⟨5, 1, 2⟩ =
      .ok { response := some ⟨5, 2, false⟩, scheduled_proc := false, state := s_one } :=
  C3_duplicate_create_fails s_one ⟨5, 1, 2⟩ reachable_s_one (by decide) (by decide)
    (Or.inl ⟨0, ⟨0, 1, 0⟩, rfl, rfl⟩)

/-- C4 counterexample: after UE 0 (RNTI 1) is created and then erased, the
registry is empty — RNTI 1 maps to no live entity and UE index 1 is free —
yet `add_ue` for UE index 1 with RNTI 1 still returns null, because the
reverse-index slot of RNTI 1 kept the stale index 0: the erase never adjusted
the reverse index.  This refutes both the claim's "fails only if the radio
identifier already maps to a live entity or the entity index is already
occupied" and its "reverse index rebuilt/adjusted on every delete". -/
theorem C4_add_only_fails_on_live_duplicate_counterexample :
    s_stale.ue_db 0 = none ∧ s_stale.ue_db 1 = none ∧
    add_ue s_stale 1 1 0 = .ok (none, s_stale) ∧
    s_stale.rnti_to_ue_index_map (1 % MAX_NOF_UES) = 0 := by
  refine ⟨rfl, rfl, ?_, rfl⟩
  rfl

/-- C4 (amended): for every call to `add_ue` with a valid UE index and valid
RNTI, the call fails (returns null without mutation) if and only if the
reverse-index slot `rnti % MAX_NOF_UES` is occupied — by a live UE or by a
stale entry of an erased UE — or the UE index is already occupied; in every
other case it inserts the entity, records its index in that reverse-index
slot, and returns a non-null handle.  The reverse index is adjusted on every
create but left untouched by the erase of a delete. -/
theorem C4_add_spec_amended (s : mac_ctrl_state) (ue_index crnti cell_index : Nat)
    (hrnti : crnti ≠ INVALID_RNTI) (hidx : ue_index < MAX_NOF_UES) :
    (add_ue s ue_index crnti cell_index = .ok (none, s) ↔
      s.rnti_to_ue_index_map (crnti % MAX_NOF_UES) < MAX_NOF_UES ∨
        (s.ue_db ue_index).isSome = true) ∧
    (¬ (s.rnti_to_ue_index_map (crnti % MAX_NOF_UES) < MAX_NOF_UES ∨
          (s.ue_db ue_index).isSome = true) →
      add_ue s ue_index crnti cell_index =
        .ok (some ⟨ue_index, crnti, cell_index⟩,
          { ue_db := Function.update s.ue_db ue_index (some ⟨ue_index, crnti, cell_index⟩),
            rnti_to_ue_index_map :=
              Function.update s.rnti_to_ue_index_map (crnti % MAX_NOF_UES) ue_index })) ∧
    (∀ i, (erase_ue s i).rnti_to_ue_index_map = s.rnti_to_ue_index_map) := by
  have hile : ¬ MAX_NOF_UES ≤ ue_index := Nat.not_le.mpr hidx
  refine ⟨⟨?_, ?_⟩, ?_, fun i => rfl⟩
  · intro h
    by_contra hcon
    push_neg at hcon
    obtain ⟨hc1, hc2⟩ := hcon
    unfold add_ue at h
    rw [if_neg hrnti, if_neg hile, if_neg (Nat.not_lt.mpr hc1), if_neg hc2] at h
    simp at h
  · intro h
    unfold add_ue
    rw [if_neg hrnti, if_neg hile]
    rcases h with h | h
    · rw [if_pos h]
    · by_cases hslot : s.rnti_to_ue_index_map (crnti % MAX_NOF_UES) < MAX_NOF_UES
      · rw [if_pos hslot]
      · rw [if_neg hslot, if_pos h]
  · intro h
    push_neg at h
    unfold add_ue
    rw [if_neg hrnti, if_neg hile, if_neg (Nat.not_lt.mpr h.1), if_neg h.2]

/-- C4 witness: on the initial state, `add_ue` for UE 0 with RNTI 1 succeeds
and performs exactly the insert and reverse-index update. -/
theorem C4_add_spec_amended_witness :
    add_ue init_state 0 1 0 =
      .ok (some ⟨0, 1, 0⟩,
        { ue_db := Function.update init_state.ue_db 0 (some ⟨0, 1, 0⟩),
          rnti_to_ue_index_map :=
            Function.update init_state.rnti_to_ue_index_map (1 % MAX_NOF_UES) 0 }) :=
  (C4_add_spec_amended init_state 0 1 0 (by decide) (by decide)).2.1 (by decide)

/-- C5: a delete request naming a UE index absent from the registry yields a
failure response with `result = false`, schedules no procedure task, and
leaves the registry and reverse index unchanged. -/
theorem C5_delete_nonexistent_fails (s : mac_ctrl_state) (msg : mac_ue_delete_request_message)
    (h : s.ue_db msg.ue_index = none) :
    ue_delete_request s msg =
      { response := some ⟨msg.ue_index, false⟩, scheduled_proc := false, state := s } := by
  unfold ue_delete_request
  rw [h]
  rfl

/-- C5 witness: deleting UE 3 on the empty initial registry. -/
theorem C5_delete_nonexistent_fails_witness :
    ue_delete_request init_state ⟨3, 70⟩ =
      { response := some ⟨3, false⟩, scheduled_proc := false, state := init_state } :=
  C5_delete_nonexistent_fails init_state ⟨3, 70⟩ rfl

/-- C6: a reconfiguration request naming a UE index absent from the registry
yields a failure response with `result = false`, schedules no procedure task,
and leaves the registry state unchanged. -/
theorem C6_reconf_nonexistent_fails (s : mac_ctrl_state)
    (msg : mac_ue_reconfiguration_request_message) (h : s.ue_db msg.ue_index = none) :
    ue_reconfiguration_request s msg =
      { response := some ⟨msg.ue_index, false⟩, scheduled_proc := false, state := s } := by
  unfold ue_reconfiguration_request
  rw [h]
  rfl

/-- C6 witness: reconfiguring UE 3 on the empty initial registry. -/
theorem C6_reconf_nonexistent_fails_witness :
    ue_reconfiguration_request init_state ⟨3, 70⟩ =
      { response := some ⟨3, false⟩, scheduled_proc := false, state := init_state } :=
  C6_reconf_nonexistent_fails init_state ⟨3, 70⟩ rfl

/-- C7 counterexample: on the reachable state holding only UE 0 created with
RNTI 1, `find_by_rnti 1025` — an identifier no live entity was created with —
returns a non-null pointer, namely the UE whose RNTI field is 1, because the
lookup reduces the identifier modulo `MAX_NOF_UES` (1024) and 1025 collides
with 1.  This refutes "null whenever that identifier is unmapped" and "a
non-null result is returned only for an entity created with that same radio
identifier". -/
theorem C7_find_by_rnti_exact_counterexample :
    find_by_rnti s_one 1025 = .ok (some ⟨0, 1, 0⟩) ∧
    s_one.ue_db 0 = some ⟨0, 1, 0⟩ ∧ (1025 : Nat) ≠ 1 := by
  refine ⟨?_, rfl, by decide⟩
  rfl

/-- C7 (amended): on every reachable state, for every valid RNTI,
`find_by_rnti` returns null exactly when the reverse-index slot
`rnti % MAX_NOF_UES` is unset or the UE index stored there has been removed
from the registry; otherwise it returns the registry entry currently at the
stored index — which need not have been created with the queried
identifier. -/
theorem C7_find_by_rnti_amended (s : mac_ctrl_state) (rnti : Nat)
    (hs : reachable s) (h : rnti ≠ INVALID_RNTI) :
    find_by_rnti s rnti =
      .ok (if s.rnti_to_ue_index_map (rnti % MAX_NOF_UES) = MAX_NOF_UES then none
        else s.ue_db (s.rnti_to_ue_index_map (rnti % MAX_NOF_UES))) := by
  unfold find_by_rnti
  rw [if_neg h]
  by_cases hslot : s.rnti_to_ue_index_map (rnti % MAX_NOF_UES) = MAX_NOF_UES
  · rw [if_pos hslot, if_pos hslot]
  · rw [if_neg hslot, if_neg hslot]
    unfold find_ue
    have hlt : s.rnti_to_ue_index_map (rnti % MAX_NOF_UES) < MAX_NOF_UES :=
      lt_of_le_of_ne ((reachable_state_inv hs).2 (rnti % MAX_NOF_UES)) hslot
    rw [if_neg (Nat.not_le.mpr hlt)]

/-- C7 witness: looking up RNTI 1 on the reachable state holding UE 0. -/
theorem C7_find_by_rnti_amended_witness :
    find_by_rnti s_one 1 =
      .ok (if s_one.rnti_to_ue_index_map (1 % MAX_NOF_UES) = MAX_NOF_UES then none
        else s_one.ue_db (s_one.rnti_to_ue_index_map (1 % MAX_NOF_UES))) :=
  C7_find_by_rnti_amended s_one 1 reachable_s_one (by decide)

/-- In every execution of the deferred-removal closure started at its entry
point (or suspended on the drain await), an `erased` event can only occur
after a `drain_resolved` event. -/
theorem erase_trace_drain_before_erased {ue_index : Nat} {c1 c2 : erase_config}
    {tr : List erase_event} (h : erase_trace ue_index c1 tr c2)
    (hpc : c1.pc = 0 ∨ c1.pc = 1) (hmem : erase_event.erased ∈ tr) :
    ∃ l r, tr = l ++ erase_event.drain_resolved :: r ∧
      erase_event.erased ∉ l ∧ erase_event.erased ∈ r := by
  induction h with
  | nil c => simp at hmem
  | cons hstep htr ih =>
    rename_i d1 d2 d3 e es
    cases hstep with
    | check hsome =>
        have hmem2 : erase_event.erased ∈ es := by
          rcases List.mem_cons.mp hmem with h1 | h1
          · exact absurd h1 (by simp)
          · exact h1
        obtain ⟨l, r, hlr, hnl, hnr⟩ := ih (Or.inr rfl) hmem2
        refine ⟨.sanity_check :: l, r, by rw [hlr]; rfl, ?_, hnr⟩
        simp [hnl]
    | drain hbz =>
        refine ⟨[], es, rfl, by simp, ?_⟩
        rcases List.mem_cons.mp hmem with h1 | h1
        · exact absurd h1 (by simp)
        · exact h1
    | erase =>
        rcases hpc with h1 | h1 <;> simp at h1
    | env busy2 =>
        have hmem2 : erase_event.erased ∈ es := by
          rcases List.mem_cons.mp hmem with h1 | h1
          · exact absurd h1 (by simp)
          · exact h1
        obtain ⟨l, r, hlr, hnl, hnr⟩ := ih hpc hmem2
        refine ⟨.env_step :: l, r, by rw [hlr]; rfl, ?_, hnr⟩
        simp [hnl]

/-- C8: an entity is never erased while its control loop is busy — in any
execution of the deferred-removal closure from its entry point that contains
an `erased` event, that event is strictly preceded by the resolution of the
control-loop stop/drain await, and the drain await only ever resolves in a
configuration whose control loop has no running or queued task. -/
theorem C8_erase_preceded_by_drain (ue_index : Nat) (s : mac_ctrl_state)
    (busy : Nat → Bool) (tr : List erase_event) (final : erase_config)
    (h : erase_trace ue_index ⟨s, busy, 0⟩ tr final) (hmem : erase_event.erased ∈ tr) :
    (∃ l r, tr = l ++ erase_event.drain_resolved :: r ∧
      erase_event.erased ∉ l ∧ erase_event.erased ∈ r) ∧
    (∀ c1 c2 : erase_config, erase_step ue_index c1 .drain_resolved c2 →
      c1.loop_busy ue_index = false) := by
  refine ⟨erase_trace_drain_before_erased h (Or.inl rfl) hmem, ?_⟩
  intro c1 c2 hst
  cases hst with
  | drain hbz => exact hbz

/-- A complete concrete execution of the deferred-removal closure for UE 0 on
the state holding that UE, with its control loop already drained. -/
theorem erase_trace_demo :
    erase_trace 0 ⟨s_one, fun _ => false, 0⟩
      [erase_event.sanity_check, erase_event.drain_resolved, erase_event.erased]
      ⟨erase_ue s_one 0, fun _ => false, 3⟩ :=
  .cons (.check rfl) (.cons (.drain rfl) (.cons .erase (.nil _)))

/-- C8 witness: the concrete three-step execution for UE 0. -/
theorem C8_erase_preceded_by_drain_witness :
    (∃ l r, ([erase_event.sanity_check, erase_event.drain_resolved, erase_event.erased] :
        List erase_event) = l ++ erase_event.drain_resolved :: r ∧
      erase_event.erased ∉ l ∧ erase_event.erased ∈ r) ∧
    (∀ c1 c2 : erase_config, erase_step 0 c1 .drain_resolved c2 →
      c1.loop_busy 0 = false) :=
  C8_erase_preceded_by_drain 0 s_one (fun _ => false) _ _ erase_trace_demo (by decide)

/-- C9: on every reachable state, calls to `add_ue`, `find_ue` and
`find_by_rnti` whose arguments satisfy the preconditions (UE index strictly
below `MAX_NOF_UES`, RNTI different from `INVALID_RNTI`) never hit the fatal
assertion; a violated precondition is signalled as the fatal assertion, never
as a null/false result. -/
theorem C9_assert_contract (s : mac_ctrl_state) (ue_index rnti cell_index : Nat)
    (hs : reachable s) :
    (rnti ≠ INVALID_RNTI → ue_index < MAX_NOF_UES →
      add_ue s ue_index rnti cell_index ≠ .assert_fail) ∧
    (ue_index < MAX_NOF_UES → find_ue s ue_index ≠ .assert_fail) ∧
    (rnti ≠ INVALID_RNTI → find_by_rnti s rnti ≠ .assert_fail) ∧
    (rnti = INVALID_RNTI ∨ MAX_NOF_UES ≤ ue_index →
      add_ue s ue_index rnti cell_index = .assert_fail) ∧
    (MAX_NOF_UES ≤ ue_index → find_ue s ue_index = .assert_fail) ∧
    (rnti = INVALID_RNTI → find_by_rnti s rnti = .assert_fail) := by
  refine ⟨?_, ?_, ?_, ?_, ?_, ?_⟩
  · intro h1 h2
    unfold add_ue
    rw [if_neg h1, if_neg (Nat.not_le.mpr h2)]
    split_ifs <;> simp
  · intro h2
    unfold find_ue
    rw [if_neg (Nat.not_le.mpr h2)]
    simp
  · intro h1
    unfold find_by_rnti
    rw [if_neg h1]
    by_cases hslot : s.rnti_to_ue_index_map (rnti % MAX_NOF_UES) = MAX_NOF_UES
    · rw [if_pos hslot]
      simp
    · rw [if_neg hslot]
      unfold find_ue
      have hlt : s.rnti_to_ue_index_map (rnti % MAX_NOF_UES) < MAX_NOF_UES :=
        lt_of_le_of_ne ((reachable_state_inv hs).2 (rnti % MAX_NOF_UES)) hslot
      rw [if_neg (Nat.not_le.mpr hlt)]
      simp
  · intro h
    unfold add_ue
    rcases h with h | h
    · rw [if_pos h]
    · by_cases h1 : rnti = INVALID_RNTI
      · rw [if_pos h1]
      · rw [if_neg h1, if_pos h]
  · intro h
    unfold find_ue
    rw [if_pos h]
  · intro h
    unfold find_by_rnti
    rw [if_pos h]

/-- C9 witness: on the initial state, a well-formed `add_ue` call does not
assert, and `find_by_rnti` with the invalid RNTI asserts. -/
theorem C9_assert_contract_witness :
    add_ue init_state 0 1 0 ≠ .assert_fail ∧
    find_by_rnti init_state 0 = .assert_fail :=
  ⟨(C9_assert_contract init_state 0 1 0 reachable.init).1 (by decide) (by decide),
   (C9_assert_contract init_state 0 0 0 reachable.init).2.2.2.2.2 rfl⟩

/-- C10: `remove_ue` on an in-bounds UE index absent from the registry logs
the not-found warning and returns without scheduling the deferred-erase
closure and without changing the registry or reverse index. -/
theorem C10_remove_absent_noop (s : mac_ctrl_state) (ue_index : Nat)
    (h1 : ue_index < MAX_NOF_UES) (h2 : s.ue_db ue_index = none) :
    remove_ue s ue_index = .ok { warned := true, scheduled_erase := false, state := s } := by
  unfold remove_ue
  rw [if_neg (Nat.not_le.mpr h1), h2]
  rfl

/-- C10 witness: removing UE 7 on the empty initial registry. -/
theorem C10_remove_absent_noop_witness :
    remove_ue init_state 7 =
      .ok { warned := true, scheduled_erase := false, state := init_state } :=
  C10_remove_absent_noop init_state 7 (by decide) rfl

end SrsranMacCtrl
